import Mathlib

/-!
Verification of the SSLproxy configuration, proxy-specification and
filtering-rule subsystem (opts.c and the filter test suite) against its
natural-language specification.  The C sources are shallowly embedded:
pure computations become Lean functions, the option records become
structures, machine integers become Int/Nat with explicit unsigned
conversion where the C code compares as unsigned, and fallible setters
return an integer status together with the new state and an optional
diagnostic string.
-/

namespace SSLproxy

/-! ## Filter rules (data model of filter.h, as printed by filter_rule_str)

The filter implementation (filter.c) is not part of the provided sources;
only its unit tests are.  The rule record below carries exactly the fields
that the repository test suite prints for each compiled rule:
site, port, ip, user, keyword, the per-slot exact flags, the all_conns,
all_users, all_sites and all_ports flags, the five-bit action mask, the
six log channels each with a negation state, the five apply-to channel
bits, and the computed precedence integer. -/

/-- One log channel of a filter rule: not mentioned, set, or negated
(the `!channel` form of the rule language). -/
inductive LogState where
  | off : LogState
  | on : LogState
  | neg : LogState
deriving DecidableEq, Repr

/-- A compiled filter rule, with the fields printed by filter_rule_str in
the repository test suite.  `precedence` is the value the compiler stored
for the rule. -/
structure FilterRule where
  site : String
  port : String
  ip : String
  user : String
  keyword : String
  exact_site : Bool
  exact_port : Bool
  exact_ip : Bool
  exact_user : Bool
  exact_keyword : Bool
  all_conns : Bool
  all_users : Bool
  all_sites : Bool
  all_ports : Bool
  action_divert : Bool
  action_split : Bool
  action_pass : Bool
  action_block : Bool
  action_match : Bool
  log_connect : LogState
  log_master : LogState
  log_cert : LogState
  log_content : LogState
  log_pcap : LogState
  log_mirror : LogState
  apply_dstip : Bool
  apply_sni : Bool
  apply_cn : Bool
  apply_host : Bool
  apply_uri : Bool
  precedence : Nat
deriving DecidableEq, Repr

/-- True when the rule carries any log directive (positive or negated). -/
def logPresent (r : FilterRule) : Bool :=
  r.log_connect != LogState.off || r.log_master != LogState.off ||
  r.log_cert != LogState.off || r.log_content != LogState.off ||
  r.log_pcap != LogState.off || r.log_mirror != LogState.off

/-- True when the rule has a target-site clause: a `to` clause naming one
of the five channels restricts the apply-to mask to that channel, whereas
a rule without a `to` clause (or with the bare `to *`) applies to all five
channels. -/
def applyRestricted (r : FilterRule) : Bool :=
  !(r.apply_dstip && r.apply_sni && r.apply_cn && r.apply_host && r.apply_uri)

/-- True when the rule has a port clause (a concrete port token or the
all-ports `port *`). -/
def portClause (r : FilterRule) : Bool :=
  r.port != "" || r.all_ports

/-- Precedence as actually computed by the filter-rule compiler.  filter.c
is absent from the provided sources, so this definition is reconstructed
from the expected rule dumps of the repository unit tests
(set_filter_rule_01 .. set_filter_rule_13): one point when the source
names a user or description (incl. the all-users `from user *`), one more
when the user is a specific one, one for a description keyword, one for a
target-site clause, one for a port clause, one for a log clause.  A
source-IP constraint and a Block action contribute nothing.  The theorem
below checks this formula against every precedence value expected by the
test suite. -/
def rulePrecedence (r : FilterRule) : Nat :=
  (if r.user ≠ "" ∨ r.keyword ≠ "" ∨ r.all_users = true then 1 else 0)
  + (if r.user ≠ "" then 1 else 0)
  + (if r.keyword ≠ "" then 1 else 0)
  + (if applyRestricted r = true then 1 else 0)
  + (if portClause r = true then 1 else 0)
  + (if logPresent r = true then 1 else 0)

/-- Modelled from the spec: the precedence formula of spec section 4.3,
"(has source constraint: user|desc|ip ? 1 : 0) + (has site token ? 1 : 0)
+ (has port token ? 1 : 0) + (action is Block ? 1 : 0) + (log mask
non-empty ? 1 : 0)".  A source constraint is read as a concrete user,
description or source-IP value. -/
def specPrecedence (r : FilterRule) : Nat :=
  (if r.user ≠ "" ∨ r.keyword ≠ "" ∨ r.ip ≠ "" then 1 else 0)
  + (if r.site ≠ "" then 1 else 0)
  + (if r.port ≠ "" then 1 else 0)
  + (if r.action_block = true then 1 else 0)
  + (if logPresent r = true then 1 else 0)

/-- A rule record with every slot empty, every flag clear and the
apply-to mask covering all five channels (the state printed for a rule
without any clause). -/
def fr_base : FilterRule :=
  { site := "", port := "", ip := "", user := "", keyword := "",
    exact_site := false, exact_port := false, exact_ip := false,
    exact_user := false, exact_keyword := false,
    all_conns := false, all_users := false, all_sites := false, all_ports := false,
    action_divert := false, action_split := false, action_pass := false,
    action_block := false, action_match := false,
    log_connect := .off, log_master := .off, log_cert := .off,
    log_content := .off, log_pcap := .off, log_mirror := .off,
    apply_dstip := true, apply_sni := true, apply_cn := true,
    apply_host := true, apply_uri := true,
    precedence := 0 }

/-- Restrict the apply-to mask to the dstip channel. -/
def onlyDstip (r : FilterRule) : FilterRule :=
  { r with apply_sni := false, apply_cn := false, apply_host := false, apply_uri := false }

/-- Restrict the apply-to mask to the sni channel. -/
def onlySni (r : FilterRule) : FilterRule :=
  { r with apply_dstip := false, apply_cn := false, apply_host := false, apply_uri := false }

/-- Restrict the apply-to mask to the cn channel. -/
def onlyCn (r : FilterRule) : FilterRule :=
  { r with apply_dstip := false, apply_sni := false, apply_host := false, apply_uri := false }

/-- Restrict the apply-to mask to the host channel. -/
def onlyHost (r : FilterRule) : FilterRule :=
  { r with apply_dstip := false, apply_sni := false, apply_cn := false, apply_uri := false }

/-- Restrict the apply-to mask to the uri channel. -/
def onlyUri (r : FilterRule) : FilterRule :=
  { r with apply_dstip := false, apply_sni := false, apply_cn := false, apply_host := false }

/-- Set all six log channels positively (the `log *` form, and the full
positive list used in the tests). -/
def logAllPos (r : FilterRule) : FilterRule :=
  { r with log_connect := .on, log_master := .on, log_cert := .on,
           log_content := .on, log_pcap := .on, log_mirror := .on }

/-- Set the negated connect, cert and pcap channels (the test form
`log !connect !cert !pcap`). -/
def logNegCcp (r : FilterRule) : FilterRule :=
  { r with log_connect := .neg, log_cert := .neg, log_pcap := .neg }

/-! Transcription of the expected rule dumps of the repository test suite
(part of the provided sources).  Each entry copies one
"filter rule N: ..." line of the expected filter_rule_str output,
including its expected precedence. -/

/-- Expected rules of test set_filter_rule_07. -/
def rules07 : List FilterRule :=
  [ { fr_base with all_conns := true, all_sites := true, action_divert := true, precedence := 0 },
    { fr_base with all_conns := true, all_sites := true, action_split := true, precedence := 0 },
    { fr_base with all_conns := true, all_sites := true, action_pass := true, precedence := 0 },
    { fr_base with all_users := true, all_sites := true, action_block := true, precedence := 1 },
    { fr_base with
        keyword := "desc", exact_keyword := true, all_users := true,
        all_sites := true, action_match := true, precedence := 2 },
    logAllPos { fr_base with
        all_conns := true, all_sites := true,
        action_match := true, precedence := 1 } ]

/-- Expected rules of test set_filter_rule_08. -/
def rules08 : List FilterRule :=
  [ onlyDstip { fr_base with
      site := "192.168.0.2", ip := "192.168.0.1",
      exact_site := true, exact_ip := true, action_divert := true, precedence := 1 },
    logAllPos (onlyDstip { fr_base with
        site := "192.168.0.2", ip := "192.168.0.1",
        exact_site := true, exact_ip := true, action_split := true, precedence := 2 }),
    logNegCcp (onlyDstip { fr_base with
        site := "192.168.0.2", ip := "192.168.0.1",
        exact_site := true, exact_ip := true, action_pass := true, precedence := 2 }),
    onlyDstip { fr_base with
        site := "192.168.0.2", ip := "192.168.0.1",
        exact_site := true, exact_ip := true, action_block := true, precedence := 1 },
    onlyDstip { fr_base with
        site := "192.168.0.3", ip := "192.168.0.1",
        exact_site := true, exact_ip := true, action_match := true, precedence := 1 },
    onlyDstip { fr_base with
        site := "192.168.0.1", ip := "192.168.0.2",
        exact_site := true, exact_ip := true, action_match := true, precedence := 1 },
    onlyDstip { fr_base with
        ip := "192.168.0.2", exact_ip := true, all_sites := true,
        action_match := true, precedence := 1 },
    onlyDstip { fr_base with
        site := "192.168.0.", ip := "192.168.0.2", exact_ip := true,
        action_match := true, precedence := 1 },
    onlyDstip { fr_base with
        site := "192.168.0.3", ip := "192.168.0.2",
        exact_site := true, exact_ip := true, action_match := true, precedence := 1 } ]

/-- Expected rules of test set_filter_rule_09.  The first entry is the
Divert rule with a source IP, a target site and a target port and no log
clause; the test expects precedence 2 for it. -/
def rules09 : List FilterRule :=
  [ onlyDstip { fr_base with
      site := "192.168.0.2", port := "443", ip := "192.168.0.1",
      exact_site := true, exact_port := true, exact_ip := true,
      action_divert := true, precedence := 2 },
    logAllPos (onlyDstip { fr_base with
        site := "192.168.0.2", port := "443", ip := "192.168.0.1",
        exact_site := true, exact_port := true, exact_ip := true,
        action_split := true, precedence := 3 }),
    logNegCcp (onlyDstip { fr_base with
        site := "192.168.0.2", port := "443", ip := "192.168.0.1",
        exact_site := true, exact_port := true, exact_ip := true,
        action_pass := true, precedence := 3 }),
    onlyDstip { fr_base with
        site := "192.168.0.2", port := "443", ip := "192.168.0.1",
        exact_site := true, exact_port := true, exact_ip := true,
        action_block := true, precedence := 2 },
    onlyDstip { fr_base with
        site := "192.168.0.3", ip := "192.168.0.1",
        exact_site := true, exact_ip := true, action_match := true,
        log_mirror := .neg, precedence := 2 },
    onlyDstip { fr_base with
        site := "192.168.0.3", port := "443", ip := "192.168.0.1",
        exact_site := true, exact_port := true, exact_ip := true,
        action_match := true, precedence := 2 },
    onlyDstip { fr_base with
        site := "192.168.0.3", port := "80", ip := "192.168.0.1",
        exact_site := true, exact_port := true, exact_ip := true,
        action_match := true, precedence := 2 },
    onlyDstip { fr_base with
        site := "192.168.0.1", port := "443", ip := "192.168.0.2",
        exact_site := true, exact_port := true, exact_ip := true,
        action_match := true, precedence := 2 },
    onlyDstip { fr_base with
        site := "192.168.0.1", ip := "192.168.0.2",
        exact_site := true, exact_ip := true, all_ports := true,
        action_match := true, precedence := 2 },
    onlyDstip { fr_base with
        site := "192.168.0.1", port := "80", ip := "192.168.0.2",
        exact_site := true, exact_ip := true, action_match := true, precedence := 2 } ]

/-- The first expected rule of test set_filter_rule_09: the concrete
example named by the claim (Divert, from ip, to ip and port, no log). -/
def rule09_0 : FilterRule :=
  onlyDstip { fr_base with
      site := "192.168.0.2", port := "443", ip := "192.168.0.1",
      exact_site := true, exact_port := true, exact_ip := true,
      action_divert := true, precedence := 2 }

/-- Expected rules of test set_filter_rule_10. -/
def rules10 : List FilterRule :=
  [ onlySni { fr_base with
      site := "example.com", user := "root",
      exact_site := true, exact_user := true, action_divert := true, precedence := 3 },
    logAllPos (onlySni { fr_base with
        site := "example.com", user := "root",
        exact_site := true, exact_user := true, action_split := true, precedence := 4 }),
    logNegCcp (onlySni { fr_base with
        site := "example.com", user := "root",
        exact_site := true, exact_user := true, action_pass := true, precedence := 4 }),
    onlySni { fr_base with
        site := "example.com", user := "root",
        exact_site := true, exact_user := true, action_block := true, precedence := 3 },
    onlySni { fr_base with
        site := "example2.com", user := "root",
        exact_site := true, exact_user := true, action_match := true, precedence := 3 },
    onlySni { fr_base with
        site := "example.com", user := "daemon",
        exact_site := true, exact_user := true, action_match := true, precedence := 3 },
    onlySni { fr_base with
        user := "daemon", exact_user := true, all_sites := true,
        action_match := true, precedence := 3 },
    onlySni { fr_base with
        site := ".example.com", user := "daemon", exact_user := true,
        action_match := true, precedence := 3 },
    onlySni { fr_base with
        site := "example3.com", user := "daemon",
        exact_site := true, exact_user := true, action_match := true, precedence := 3 } ]

/-- Expected rules of test set_filter_rule_11. -/
def rules11 : List FilterRule :=
  [ onlyCn { fr_base with
      site := "example.com", user := "root", keyword := "desc",
      exact_site := true, exact_user := true, exact_keyword := true,
      action_divert := true, precedence := 4 },
    logAllPos (onlyCn { fr_base with
        site := "example.com", user := "root", keyword := "desc",
        exact_site := true, exact_user := true, exact_keyword := true,
        action_split := true, precedence := 5 }),
    logNegCcp (onlyCn { fr_base with
        site := "example.com", user := "root", keyword := "desc",
        exact_site := true, exact_user := true, exact_keyword := true,
        action_pass := true, precedence := 5 }),
    onlyCn { fr_base with
        site := "example.com", user := "root", keyword := "desc",
        exact_site := true, exact_user := true, exact_keyword := true,
        action_block := true, precedence := 4 },
    onlyCn { fr_base with
        site := "example2.com", user := "root", keyword := "desc",
        exact_site := true, exact_user := true, exact_keyword := true,
        action_match := true, precedence := 4 },
    onlyCn { fr_base with
        site := "example.com", user := "daemon", keyword := "desc",
        exact_site := true, exact_user := true, exact_keyword := true,
        action_match := true, precedence := 4 },
    onlyCn { fr_base with
        user := "daemon", keyword := "desc",
        exact_user := true, exact_keyword := true, all_sites := true,
        action_match := true, precedence := 4 },
    onlyCn { fr_base with
        site := ".example.com", user := "daemon", keyword := "desc",
        exact_user := true, exact_keyword := true, action_match := true, precedence := 4 },
    onlyCn { fr_base with
        site := "example3.com", user := "daemon", keyword := "desc",
        exact_site := true, exact_user := true, exact_keyword := true,
        action_match := true, precedence := 4 },
    onlyCn { fr_base with
        site := "example4.com", user := "daemon", keyword := "desc2",
        exact_site := true, exact_user := true, exact_keyword := true,
        action_match := true, precedence := 4 },
    onlyCn { fr_base with
        site := "example5.com", keyword := "desc",
        exact_site := true, exact_keyword := true, all_users := true,
        action_match := true, precedence := 3 },
    onlyHost { fr_base with
        keyword := "desc", exact_keyword := true,
        all_users := true, all_sites := true, action_match := true, precedence := 3 },
    onlyUri { fr_base with
        site := "example6.com", keyword := "desc3",
        exact_site := true, exact_keyword := true, all_users := true,
        action_match := true, precedence := 3 } ]

/-- Two representative expected rules of test set_filter_rule_12 (the
macro cartesian product produces sixteen rules of this shape, all at
precedence 3). -/
def rules12 : List FilterRule :=
  [ onlyDstip { fr_base with
      site := "192.168.0.3", port := "80", ip := "192.168.0.1",
      exact_site := true, exact_port := true, exact_ip := true,
      action_match := true, log_master := .neg, precedence := 3 },
    onlyDstip { fr_base with
        site := "192.168.0.4", port := "443", ip := "192.168.0.2",
        exact_site := true, exact_port := true, exact_ip := true,
        action_match := true, log_pcap := .neg, precedence := 3 } ]

/-- Two representative expected rules of test set_filter_rule_13 (sixteen
rules of this shape, all at precedence 5). -/
def rules13 : List FilterRule :=
  [ onlySni { fr_base with
      site := "site1", user := "root", keyword := "desc1",
      exact_site := true, exact_user := true, exact_keyword := true,
      action_match := true, log_connect := .on, precedence := 5 },
    onlySni { fr_base with
        site := "site2", user := "daemon", keyword := "desc2",
        exact_site := true, exact_user := true, exact_keyword := true,
        action_match := true, log_content := .on, precedence := 5 } ]

/-- All transcribed expected rules of the repository filter test suite. -/
def allTestRules : List FilterRule :=
  rules07 ++ rules08 ++ rules09 ++ rules10 ++ rules11 ++ rules12 ++ rules13

/-! ## The Options container (opts_t of opts.c)

The record keeps the option fields of opts_t that the configuration
subsystem reads and copies: the scalar toggles and numbers, the owned
strings, the two user lists, the macro table and the filter-rule list.
Certificate material (cacrt, cakey, chain, clientcrt, clientkey, dh,
leafcrlurl) is re-loaded from saved strings or shared by reference count
and is outside this model.  User lists are linked lists in C; they are
lists of user names here, in head-to-tail order. -/

/-- A macro definition: name plus ordered value tokens. -/
structure FilterMacro where
  name : String
  values : List String
deriving DecidableEq, Repr

/-- The option container of one scope (opts_t). -/
structure Opts where
  divert : Bool
  sslcomp : Bool
  no_ssl2 : Bool
  no_ssl3 : Bool
  no_tls10 : Bool
  no_tls11 : Bool
  no_tls12 : Bool
  no_tls13 : Bool
  passthrough : Bool
  deny_ocsp : Bool
  sslmethod : Nat
  sslversion : Nat
  minsslversion : Nat
  maxsslversion : Nat
  remove_http_accept_encoding : Bool
  remove_http_referer : Bool
  verify_peer : Bool
  allow_wrong_host : Bool
  user_auth : Bool
  user_timeout : Nat
  validate_proto : Bool
  max_http_header_size : Nat
  ecdhcurve : Option String
  ciphers : Option String
  ciphersuites : Option String
  user_auth_url : Option String
  divertusers : List String
  passusers : List String
  macros : List FilterMacro
  filter_rules : List FilterRule
deriving DecidableEq, Repr

/-- Constants standing for the OpenSSL version numbers used by opts_new:
TLS1_VERSION and TLS1_3_VERSION (the concrete values are irrelevant, only
their identity matters to the model). -/
def TLS1_VERSION : Nat := 769

/-- OpenSSL constant TLS1_3_VERSION. -/
def TLS1_3_VERSION : Nat := 772

/-- opts_new: zero-initialize and set the defaults (divert, sslcomp,
sslmethod auto, min TLS 1.0, max TLS 1.3, Referer removal, peer
verification, user timeout 300, max HTTP header size 8192). -/
def opts_new : Opts :=
  { divert := true
    sslcomp := true
    no_ssl2 := false, no_ssl3 := false, no_tls10 := false, no_tls11 := false
    no_tls12 := false, no_tls13 := false
    passthrough := false, deny_ocsp := false
    sslmethod := 1
    sslversion := 0
    minsslversion := TLS1_VERSION
    maxsslversion := TLS1_3_VERSION
    remove_http_accept_encoding := false
    remove_http_referer := true
    verify_peer := true
    allow_wrong_host := false
    user_auth := false
    user_timeout := 300
    validate_proto := false
    max_http_header_size := 8192
    ecdhcurve := none, ciphers := none, ciphersuites := none
    user_auth_url := none
    divertusers := [], passusers := []
    macros := [], filter_rules := [] }

/-- The user-list duplication loop of global_opts_copy: walk the source
list head to tail and push each duplicated node onto the front of the
destination list. -/
def copy_userlist (l : List String) : List String :=
  l.foldl (fun acc u => u :: acc) []

/-- users_str of opts.c: a NULL accumulator becomes the empty string;
otherwise each user is appended to the accumulator, preceded by a comma
once the accumulator exists. -/
def users_str (l : List String) : String :=
  (l.foldl
    (fun us u =>
      match us with
      | none => some u
      | some s => some (s ++ "," ++ u))
    none).getD ""

/-- global_opts_copy: start from opts_new, copy every scalar from the
global opts, re-apply the string options when present, duplicate both
user lists (by the prepend loop above), and copy the macro table and the
filter-rule list.  The macro and rule copies are modelled from the spec
(filter_macro_copy and filter_rules_copy live in the absent filter.c;
the spec says the clone deep-copies both). -/
def global_opts_copy (g : Opts) : Opts :=
  { opts_new with
    divert := g.divert
    sslcomp := g.sslcomp
    no_ssl2 := g.no_ssl2, no_ssl3 := g.no_ssl3
    no_tls10 := g.no_tls10, no_tls11 := g.no_tls11
    no_tls12 := g.no_tls12, no_tls13 := g.no_tls13
    passthrough := g.passthrough
    deny_ocsp := g.deny_ocsp
    sslmethod := g.sslmethod
    sslversion := g.sslversion
    minsslversion := g.minsslversion
    maxsslversion := g.maxsslversion
    remove_http_accept_encoding := g.remove_http_accept_encoding
    remove_http_referer := g.remove_http_referer
    verify_peer := g.verify_peer
    allow_wrong_host := g.allow_wrong_host
    user_auth := g.user_auth
    user_timeout := g.user_timeout
    validate_proto := g.validate_proto
    max_http_header_size := g.max_http_header_size
    ecdhcurve := match g.ecdhcurve with | some c => some c | none => opts_new.ecdhcurve
    ciphers := match g.ciphers with | some c => some c | none => opts_new.ciphers
    ciphersuites := match g.ciphersuites with | some c => some c | none => opts_new.ciphersuites
    user_auth_url := match g.user_auth_url with | some c => some c | none => opts_new.user_auth_url
    divertusers := copy_userlist g.divertusers
    passusers := copy_userlist g.passusers
    macros := g.macros
    filter_rules := g.filter_rules }

/-! ## Numeric option setters (set_option, set_global_option,
global_set_open_files_limit)

The C setters run `unsigned int i = atoi(value)` and compare as unsigned.
The model takes the atoi result as an Int together with the current field
value and the line number, and returns the C return value, the new field
value, and the diagnostic printed on rejection. -/

/-- Conversion of a C int to unsigned int, modulo 2 to the 32 (the
implicit conversion in `unsigned int i = atoi(value)`). -/
def cUInt (i : Int) : Nat := (i % 4294967296).toNat

/-- Result of a numeric setter: C return value, resulting field value,
diagnostic if any. -/
structure SetResult where
  ret : Int
  val : Nat
  diag : Option String
deriving DecidableEq, Repr

/-- The UserTimeout branch of set_option: accept when the unsigned value
is at most 86400. -/
def set_option_user_timeout (old : Nat) (i : Int) (line_num : Int) : SetResult :=
  let u := cUInt i
  if u ≤ 86400 then
    { ret := 0, val := u, diag := none }
  else
    { ret := -1, val := old
      diag := some s!"Invalid UserTimeout {i} on line {line_num}, use 0-86400" }

/-- The MaxHTTPHeaderSize branch of set_option: accept 1024..65536. -/
def set_option_max_http_header_size (old : Nat) (i : Int) (line_num : Int) : SetResult :=
  let u := cUInt i
  if 1024 ≤ u ∧ u ≤ 65536 then
    { ret := 0, val := u, diag := none }
  else
    { ret := -1, val := old
      diag := some s!"Invalid MaxHTTPHeaderSize {i} on line {line_num}, use 1024-65536" }

/-- The ConnIdleTimeout branch of set_global_option: accept 10..3600. -/
def set_global_conn_idle_timeout (old : Nat) (i : Int) (line_num : Int) : SetResult :=
  let u := cUInt i
  if 10 ≤ u ∧ u ≤ 3600 then
    { ret := 0, val := u, diag := none }
  else
    { ret := -1, val := old
      diag := some s!"Invalid ConnIdleTimeout {i} on line {line_num}, use 10-3600" }

/-- The ExpiredConnCheckPeriod branch of set_global_option: accept 10..60. -/
def set_global_expired_conn_check_period (old : Nat) (i : Int) (line_num : Int) : SetResult :=
  let u := cUInt i
  if 10 ≤ u ∧ u ≤ 60 then
    { ret := 0, val := u, diag := none }
  else
    { ret := -1, val := old
      diag := some s!"Invalid ExpiredConnCheckPeriod {i} on line {line_num}, use 10-60" }

/-- The StatsPeriod branch of set_global_option: accept 1..10. -/
def set_global_stats_period (old : Nat) (i : Int) (line_num : Int) : SetResult :=
  let u := cUInt i
  if 1 ≤ u ∧ u ≤ 10 then
    { ret := 0, val := u, diag := none }
  else
    { ret := -1, val := old
      diag := some s!"Invalid StatsPeriod {i} on line {line_num}, use 1-10" }

/-- The LeafKeyRSABits branch of set_global_option: accept exactly 1024,
2048, 3072 or 4096. -/
def set_global_leafkey_rsabits (old : Nat) (i : Int) (line_num : Int) : SetResult :=
  let u := cUInt i
  if u = 1024 ∨ u = 2048 ∨ u = 3072 ∨ u = 4096 then
    { ret := 0, val := u, diag := none }
  else
    { ret := -1, val := old
      diag := some s!"Invalid LeafKeyRSABits {i} on line {line_num}, use 1024|2048|3072|4096" }

/-- global_set_open_files_limit: accept 50..10000, in which case the
limit is installed with setrlimit, whose success is the rlimitOk
parameter (an OS effect outside the model); out of range is rejected
with a line-numbered diagnostic.  There is no stored field; `val` echoes
the installed limit on success and 0 otherwise. -/
def global_set_open_files_limit (i : Int) (line_num : Int) (rlimitOk : Bool) : SetResult :=
  let u := cUInt i
  if 50 ≤ u ∧ u ≤ 10000 then
    if rlimitOk then
      { ret := 0, val := u, diag := none }
    else
      { ret := -1, val := 0, diag := some "Failed setting OpenFilesLimit" }
  else
    { ret := -1, val := 0
      diag := some s!"Invalid OpenFilesLimit {i} on line {line_num}, use 50-10000" }

/-! ## The Divert disambiguation in set_option -/

/-- is_yesno of opts.c: 1 for "yes", 0 for "no", -1 otherwise. -/
def is_yesno (value : String) : Int :=
  if value = "yes" then 1
  else if value = "no" then 0
  else -1

/-- opts_set_divert: set the divert flag. -/
def opts_set_divert (o : Opts) : Opts := { o with divert := true }

/-- opts_unset_divert: clear the divert flag. -/
def opts_unset_divert (o : Opts) : Opts := { o with divert := false }

/-- Outcome of dispatching one directive through set_option. -/
inductive OptOutcome where
  /-- Returned 0 with the updated options. -/
  | ok : Opts → OptOutcome
  /-- Returned -1 after printing the diagnostic. -/
  | err : String → OptOutcome
  /-- The directive was handed to filter_rule_set with this action name
  and value (the one-line rule path of the absent filter.c). -/
  | rule : String → String → Opts → OptOutcome
  /-- A directive outside the modelled subset of the dispatcher. -/
  | other : OptOutcome
deriving DecidableEq, Repr

/-- The set_option dispatcher, restricted to its leading value-presence
check and its Divert branch (plus the sibling one-line rule actions);
all other names map to `.other`.  The C code first rejects a missing or
empty value for every directive, then, for Divert, toggles the flag when
the value is exactly yes or no and otherwise hands the line to
filter_rule_set as a one-line Divert rule. -/
def set_option_model (opts : Opts) (name value : String) (line_num : Int) : OptOutcome :=
  if value.length = 0 then
    .err s!"No value assigned for {name} on line {line_num}"
  else if name = "Split" ∨ name = "Pass" ∨ name = "Block" ∨ name = "Match" then
    .rule name value opts
  else if name = "Divert" then
    let yes := is_yesno value
    if yes = -1 then
      .rule name value opts
    else if yes = 1 then
      .ok (opts_set_divert opts)
    else
      .ok (opts_unset_divert opts)
  else
    .other

/-! ## User lists (opts_set_userlist) -/

/-- MAX_USERS of opts.c. -/
def MAX_USERS : Nat := 50

/-- The token-collection loop of opts_set_userlist: append tokens to the
argv array while fewer than MAX_USERS have been collected; one more token
aborts with an error (`none`). -/
def collect_users (toks : List String) (argv : List String) : Option (List String) :=
  match toks with
  | [] => some argv
  | p :: ps =>
    if argv.length < MAX_USERS then
      collect_users ps (argv ++ [p])
    else
      none

/-- The installation loop of opts_set_userlist: `while (argc--)` walks
the argv array from its last entry to its first and pushes each onto the
front of the (already emptied) list. -/
def install_users (argv : List String) : List String :=
  argv.reverse.foldl (fun lst u => u :: lst) []

/-- opts_set_userlist: collect at most 50 tokens (one more is an error
that leaves the stored list untouched), reject an empty token list, and
otherwise free the previous list and install the collected users. -/
def opts_set_userlist (toks : List String) (line_num : Int) (list : List String)
    (listname : String) : Int × List String × Option String :=
  match collect_users toks [] with
  | none =>
    (-1, list,
      some s!"Too many arguments in user list, max users allowed 50, on line {line_num}")
  | some argv =>
    if argv.length = 0 then
      (-1, list, some s!"{listname} requires at least one parameter on line {line_num}")
    else
      (0, install_users argv, none)

/-! ## Include handling (set_global_option, opts_load_conffile)

A configuration file is a list of directives; a directive is either an
Include naming another file or any other line, modelled by the success of
its dispatch.  The file system maps names to contents.  The include flag
of tmp_global_opts_t is threaded exactly as in C: it is set around the
recursive opts_load_conffile call and an Include seen while it is set is
rejected before any file is opened.  The result carries the overall
success and the list of files opened (fopen attempts), in order. -/

/-- One line of a configuration file, as far as Include handling is
concerned. -/
inductive Directive where
  /-- An `Include path` line. -/
  | inc : String → Directive
  /-- Any other directive; the flag tells whether its setter succeeds. -/
  | plain : Bool → Directive
deriving DecidableEq, Repr

/-- Look up a file by name. -/
def lookupFile (fs : List (String × List Directive)) (n : String) :
    Option (List Directive) :=
  match fs with
  | [] => none
  | (m, ds) :: rest => if m = n then some ds else lookupFile rest n

/-- The directive loop of opts_load_conffile combined with the Include
branch of set_global_option.  The include flag of tmp_global_opts_t is
encoded as the remaining include depth: depth 0 means the flag is set
(inside an included file), depth 1 means top level.  Returns (success,
files opened, first include diagnostic if any). -/
def load_conffile_go (fs : List (String × List Directive)) (depth : Nat)
    (ds : List Directive) : Bool × List String × Option String :=
  match ds with
  | [] => (true, [], none)
  | .plain ok :: rest =>
    if ok then load_conffile_go fs depth rest else (false, [], none)
  | .inc n :: rest =>
    match depth with
    | 0 => (false, [], some s!"Include option not allowed in include files {n}")
    | d + 1 =>
      match lookupFile fs n with
      | none => (false, [n], some s!"Error opening conf file {n}")
      | some inner =>
        let r := load_conffile_go fs d inner
        if r.1 then
          let r2 := load_conffile_go fs (d + 1) rest
          (r2.1, n :: r.2.1 ++ r2.2.1, r2.2.2)
        else
          (false, n :: r.2.1, r.2.2)
termination_by (depth, ds.length)
decreasing_by
  all_goals simp_wf
  all_goals omega

/-- The directive loop with the C include flag: a set flag corresponds to
depth 0. -/
def load_conffile_dirs (fs : List (String × List Directive)) (flag : Bool)
    (ds : List Directive) : Bool × List String × Option String :=
  load_conffile_go fs (if flag then 0 else 1) ds

/-! ## Proxy specifications (proxyspec_t and its setters)

Addresses are kept as the success of sys_sockaddr_parse plus a nonzero
length marker; the resolver, NAT-engine lookup and address family come
from an environment record. -/

/-- A listener specification (proxyspec_t), restricted to the fields the
configuration subsystem sets. -/
structure Proxyspec where
  ssl : Bool
  http : Bool
  upgrade : Bool
  pop3 : Bool
  smtp : Bool
  listen_addrlen : Nat
  conn_dst_addrlen : Nat
  child_src_addrlen : Nat
  connect_addrlen : Nat
  sni_port : Int
  dns : Bool
  natengine : Option String
  opts : Opts
deriving DecidableEq, Repr

/-- The zeroed proxyspec of proxyspec_new, with its freshly cloned
options. -/
def proxyspec_blank (o : Opts) : Proxyspec :=
  { ssl := false, http := false, upgrade := false, pop3 := false, smtp := false
    listen_addrlen := 0, conn_dst_addrlen := 0, child_src_addrlen := 0
    connect_addrlen := 0, sni_port := 0, dns := false, natengine := none
    opts := o }

/-- proxyspec_new: allocate a zeroed spec whose options are the clone of
the global options at this instant. -/
def proxyspec_new (g : Opts) : Proxyspec :=
  proxyspec_blank (global_opts_copy g)

/-- proxyspec_set_proto: clear all protocol flags, then set them from the
keyword; an unknown keyword is rejected with the flags left cleared. -/
def proxyspec_set_proto (spec : Proxyspec) (value : String) : Int × Proxyspec :=
  let s := { spec with ssl := false, http := false, upgrade := false
                       pop3 := false, smtp := false }
  if value = "tcp" then (0, s)
  else if value = "ssl" then (0, { s with ssl := true })
  else if value = "http" then (0, { s with http := true })
  else if value = "https" then (0, { s with ssl := true, http := true })
  else if value = "autossl" then (0, { s with upgrade := true })
  else if value = "pop3" then (0, { s with pop3 := true })
  else if value = "pop3s" then (0, { s with ssl := true, pop3 := true })
  else if value = "smtp" then (0, { s with smtp := true })
  else if value = "smtps" then (0, { s with ssl := true, smtp := true })
  else (-1, s)

/-- The nine protocol keywords recognised by the one-line listener
grammar. -/
def protoKeywords : List String :=
  ["tcp", "ssl", "http", "https", "autossl", "pop3", "pop3s", "smtp", "smtps"]

/-- ASCII digit test for the atoi model. -/
def isDigitCh (c : Char) : Bool := '0' ≤ c && c ≤ '9'

/-- Digit-consuming loop of atoi: accumulate while digits last. -/
def atoiDigits : List Char → Nat → Nat
  | [], acc => acc
  | c :: cs, acc =>
    if isDigitCh c then atoiDigits cs (acc * 10 + (c.toNat - 48)) else acc

/-- Whitespace accepted by atoi before the number. -/
def isSpaceCh (c : Char) : Bool :=
  c = ' ' || c = '\t' || c = '\n' || c = '\r' || c = '\x0b' || c = '\x0c'

/-- Skip leading whitespace. -/
def skipSpaces : List Char → List Char
  | [] => []
  | c :: cs => if isSpaceCh c then skipSpaces cs else c :: cs

/-- C atoi on the character list: optional whitespace, optional sign,
leading digits (overflow is outside the model). -/
def atoiChars (cs : List Char) : Int :=
  match skipSpaces cs with
  | '-' :: rest => -(atoiDigits rest 0 : Int)
  | '+' :: rest => (atoiDigits rest 0 : Int)
  | rest => (atoiDigits rest 0 : Int)

/-- C atoi on a string. -/
def atoi (s : String) : Int := atoiChars s.data

/-- proxyspec_set_sni_port: reject when the ssl protocol flag is not set
(printing that SNI lookup only works for ssl and https proxyspecs),
reject a port whose atoi value is zero, and otherwise store the port,
set the dns flag and drop the NAT engine. -/
def proxyspec_set_sni_port (spec : Proxyspec) (port : String) :
    Int × Proxyspec × Option String :=
  if spec.ssl = false then
    (-1, spec, some "SNI hostname lookup only works for ssl and https proxyspecs")
  else
    let p := atoi port
    if p = 0 then
      (-1, spec, some s!"Invalid port {port}")
    else
      (0, { spec with sni_port := p, dns := true, natengine := none }, none)

/-- Environment abstracting the system services used while parsing
proxyspecs: address resolution success, the address family of a listen
address, and NAT-engine existence. -/
structure SysEnv where
  sockaddrOk : String → String → Bool
  getAf : String → Int
  natExist : String → Bool

/-- proxyspec_set_listen_addr: resolve the listen address; on success
record its length, remember the address family and store the default NAT
engine. -/
def proxyspec_set_listen_addr (env : SysEnv) (spec : Proxyspec)
    (addr port : String) (natengine : Option String) : Int × Proxyspec :=
  if env.sockaddrOk addr port then
    (env.getAf addr, { spec with listen_addrlen := 16, natengine := natengine })
  else
    (-1, spec)

/-- proxyspec_set_divert_addr: resolve the divert (conn dst) address. -/
def proxyspec_set_divert_addr (env : SysEnv) (spec : Proxyspec)
    (addr port : String) : Int × Proxyspec :=
  if env.sockaddrOk addr port then
    (0, { spec with conn_dst_addrlen := 16 })
  else
    (-1, spec)

/-- proxyspec_set_return_addr: resolve the child source address (port 0). -/
def proxyspec_set_return_addr (env : SysEnv) (spec : Proxyspec)
    (addr : String) : Int × Proxyspec :=
  if env.sockaddrOk addr "0" then
    (0, { spec with child_src_addrlen := 16 })
  else
    (-1, spec)

/-- proxyspec_set_target_addr: resolve the explicit connect address and
clear the NAT engine. -/
def proxyspec_set_target_addr (env : SysEnv) (spec : Proxyspec)
    (addr port : String) : Int × Proxyspec :=
  if env.sockaddrOk addr port then
    (0, { spec with connect_addrlen := 16, natengine := none })
  else
    (-1, spec)

/-- proxyspec_set_natengine: store the default NAT engine after checking
it exists. -/
def proxyspec_set_natengine (env : SysEnv) (spec : Proxyspec)
    (natengine : String) : Int × Proxyspec :=
  if env.natExist natengine then
    (0, { spec with natengine := some natengine })
  else
    (-1, spec)

/-- set_divert of opts.c: the command-line split flag, or the absence of
a divert (conn dst) address, forces split mode on the spec; otherwise the
Divert option value already stored in the cloned options stands. -/
def set_divert (spec : Proxyspec) (split : Bool) : Proxyspec :=
  if split || spec.conn_dst_addrlen = 0 then
    { spec with opts := opts_unset_divert spec.opts }
  else
    spec

/-! ## The one-line listener state machine (proxyspec_parse) -/

/-- Does the pattern occur at the start of the character list. -/
def leadsWith : List Char → List Char → Bool
  | [], _ => true
  | _ :: _, [] => false
  | p :: ps, c :: cs => p == c && leadsWith ps cs

/-- Does the pattern occur anywhere in the character list (strstr). -/
def hasSubList (pat : List Char) : List Char → Bool
  | [] => leadsWith pat []
  | c :: cs => leadsWith pat (c :: cs) || hasSubList pat cs

/-- strstr as a Boolean: the pattern occurs somewhere in the string. -/
def strHas (s pat : String) : Bool := hasSubList pat.data s.data

/-- The pointer arithmetic `token + 3` used for the up:, ua: and ra:
tokens: drop the first three characters. -/
def afterTag3 (s : String) : String := String.mk (s.data.drop 3)

/-- The divert and return address setup of the up: branch: install the
divert (conn dst) address with the given port and the return (child
source) address, reporting the first failure. -/
def divert_setup (env : SysEnv) (sp : Proxyspec) (da ra dp : String) :
    Int × Proxyspec :=
  let r1 := proxyspec_set_divert_addr env sp da dp
  if r1.1 = -1 then (-1, r1.2)
  else
    let r2 := proxyspec_set_return_addr env r1.2 ra
    if r2.1 = -1 then (-1, r2.2) else (0, r2.2)

/-- The optional ua: and ra: lookahead of the up: branch: inspect up to
two following tokens, returning the divert address, the return address
(each defaulting to 127.0.0.1) and how many lookahead tokens were
consumed. -/
def divert_lookahead (rest : List String) : String × String × Nat :=
  match rest with
  | [] => ("127.0.0.1", "127.0.0.1", 0)
  | r1 :: rest1 =>
    if strHas r1 "ua:" then
      match rest1 with
      | r2 :: _ =>
        if strHas r2 "ra:" then (afterTag3 r1, afterTag3 r2, 2)
        else (afterTag3 r1, "127.0.0.1", 1)
      | [] => (afterTag3 r1, "127.0.0.1", 1)
    else if strHas r1 "ra:" then ("127.0.0.1", afterTag3 r1, 1)
    else ("127.0.0.1", "127.0.0.1", 0)

/-- The token loop of proxyspec_parse.  The arguments mirror the C
locals: the remaining tokens, the specs already pushed onto the global
(head = current spec), the saved address token, the state, and the
number of upcoming tokens already consumed by the ua:/ra: lookahead of
an up: token (the C advances argv past them; here they are skipped).
The result is (no setter failed, final spec list, final state).  The C
switch places `default:` together with `case 0`, so any other state
value behaves like state 0; the fall-through from case 3 to case 4 is
written out in the state-3 arm (with the state already advanced to 4),
and the one-token rewind performed for a protocol keyword in state 4 is
modelled by processing the keyword directly as state 0 does. -/
def proxyspec_parse_go (env : SysEnv) (g : Opts) (natengine : Option String) :
    List String → List Proxyspec → String → Nat → Nat → Bool × List Proxyspec × Nat
  | [], specs, _, st, _ => (true, specs, st)
  | t :: rest, specs, addr, st, skip =>
    match skip with
    | n + 1 => proxyspec_parse_go env g natengine rest specs addr st n
    | 0 =>
    match st with
    | 1 =>
      proxyspec_parse_go env g natengine rest specs t 2 0
    | 2 =>
      match specs with
      | [] => (false, [], 2)
      | sp :: tl =>
        let r := proxyspec_set_listen_addr env sp addr t natengine
        if r.1 = -1 then (false, r.2 :: tl, 2)
        else proxyspec_parse_go env g natengine rest (r.2 :: tl) addr 3 0
    | 3 =>
      if strHas t "up:" then
        match specs with
        | [] => (false, [], 4)
        | sp :: tl =>
          let dp := afterTag3 t
          let la := divert_lookahead rest
          let r := divert_setup env sp la.1 la.2.1 dp
          if r.1 = -1 then (false, r.2 :: tl, 4)
          else proxyspec_parse_go env g natengine rest (r.2 :: tl) addr 4 la.2.2
      else if protoKeywords.contains t then
        let spec := proxyspec_new g
        let r := proxyspec_set_proto spec t
        if r.1 = -1 then (false, r.2 :: specs, 0)
        else proxyspec_parse_go env g natengine rest (r.2 :: specs) addr 1 0
      else if t = "sni" then
        proxyspec_parse_go env g natengine rest specs addr 6 0
      else if env.natExist t then
        match specs with
        | [] => (false, [], 4)
        | sp :: tl =>
          match natengine with
          | some ne =>
            let r := proxyspec_set_natengine env sp ne
            if r.1 = -1 then (false, r.2 :: tl, 4)
            else proxyspec_parse_go env g natengine rest (r.2 :: tl) addr 0 0
          | none => (false, specs, 4)
      else
        proxyspec_parse_go env g natengine rest specs t 5 0
    | 4 =>
      if protoKeywords.contains t then
        let spec := proxyspec_new g
        let r := proxyspec_set_proto spec t
        if r.1 = -1 then (false, r.2 :: specs, 0)
        else proxyspec_parse_go env g natengine rest (r.2 :: specs) addr 1 0
      else if t = "sni" then
        proxyspec_parse_go env g natengine rest specs addr 6 0
      else if env.natExist t then
        match specs with
        | [] => (false, [], 4)
        | sp :: tl =>
          match natengine with
          | some ne =>
            let r := proxyspec_set_natengine env sp ne
            if r.1 = -1 then (false, r.2 :: tl, 4)
            else proxyspec_parse_go env g natengine rest (r.2 :: tl) addr 0 0
          | none => (false, specs, 4)
      else
        proxyspec_parse_go env g natengine rest specs t 5 0
    | 5 =>
      match specs with
      | [] => (false, [], 5)
      | sp :: tl =>
        let r := proxyspec_set_target_addr env sp addr t
        if r.1 = -1 then (false, r.2 :: tl, 5)
        else proxyspec_parse_go env g natengine rest (r.2 :: tl) addr 0 0
    | 6 =>
      match specs with
      | [] => (false, [], 6)
      | sp :: tl =>
        let r := proxyspec_set_sni_port sp t
        if r.1 = -1 then (false, r.2.1 :: tl, 6)
        else proxyspec_parse_go env g natengine rest (r.2.1 :: tl) addr 0 0
    | _ =>
      let spec := proxyspec_new g
      let r := proxyspec_set_proto spec t
      if r.1 = -1 then (false, r.2 :: specs, st)
      else proxyspec_parse_go env g natengine rest (r.2 :: specs) addr 1 0

/-- proxyspec_parse: run the token loop from state 0 with no current
spec; report "Incomplete proxyspec!" when the tokens ran out in a state
other than 0, 3 or 4; otherwise apply set_divert to the spec under
construction (when one exists) and return 0.  The result is the C return
value, the accumulated spec list and the diagnostic, if any, of the
final incompleteness check. -/
def proxyspec_parse (env : SysEnv) (g : Opts) (natengine : Option String)
    (split : Bool) (tokens : List String) : Int × List Proxyspec × Option String :=
  let r := proxyspec_parse_go env g natengine tokens [] "" 0 0
  if r.1 = false then (-1, r.2.1, none)
  else if r.2.2 ≠ 0 ∧ r.2.2 ≠ 3 ∧ r.2.2 ≠ 4 then
    (-1, r.2.1, some "Incomplete proxyspec!")
  else
    match r.2.1 with
    | [] => (0, [], none)
    | sp :: tl => (0, set_divert sp split :: tl, none)

/-! ## Global state and its mutating operations (for the frame property)

The configuration phase mutates the global option record through the
setters of opts.c; listener creation clones it.  The operations below are
the modelled global setters; each acts on the global opts only, exactly
as the corresponding C setter does. -/

/-- The global state: the top-level options and the listener specs
created so far. -/
structure GlobalSt where
  opts : Opts
  specs : List Proxyspec
deriving DecidableEq, Repr

/-- A mutation of the global options through one of the modelled
setters of opts.c. -/
inductive GlobalOp where
  /-- A `Divert value` directive dispatched through set_option. -/
  | divertDirective : String → Int → GlobalOp
  /-- UserAuth yes (opts_set_user_auth). -/
  | userAuthYes : GlobalOp
  /-- UserAuth no (opts_unset_user_auth). -/
  | userAuthNo : GlobalOp
  /-- UserTimeout with the given atoi value. -/
  | userTimeout : Int → Int → GlobalOp
  /-- MaxHTTPHeaderSize with the given atoi value. -/
  | maxHTTPHeaderSize : Int → Int → GlobalOp
  /-- Ciphers (opts_set_ciphers, a strdup setter). -/
  | ciphers : String → GlobalOp
  /-- CipherSuites (opts_set_ciphersuites). -/
  | ciphersuites : String → GlobalOp
  /-- ECDHCurve (opts_set_ecdhcurve, after curve validation). -/
  | ecdhcurve : String → GlobalOp
  /-- UserAuthURL (opts_set_user_auth_url). -/
  | userAuthURL : String → GlobalOp
  /-- DivertUsers with the given token list. -/
  | divertUsers : List String → Int → GlobalOp
  /-- PassUsers with the given token list. -/
  | passUsers : List String → Int → GlobalOp
deriving DecidableEq, Repr

/-- Apply one global setter to the global state.  Every setter mutates
global->opts (or leaves it alone on rejection); none of them touches the
already-created listener specs. -/
def applyGlobalOp (g : GlobalSt) (op : GlobalOp) : GlobalSt :=
  match op with
  | .divertDirective v l =>
    match set_option_model g.opts "Divert" v l with
    | .ok o => { g with opts := o }
    | _ => g
  | .userAuthYes => { g with opts := { g.opts with user_auth := true } }
  | .userAuthNo => { g with opts := { g.opts with user_auth := false } }
  | .userTimeout i l =>
    { g with opts :=
        { g.opts with user_timeout := (set_option_user_timeout g.opts.user_timeout i l).val } }
  | .maxHTTPHeaderSize i l =>
    { g with opts :=
        { g.opts with max_http_header_size :=
            (set_option_max_http_header_size g.opts.max_http_header_size i l).val } }
  | .ciphers s => { g with opts := { g.opts with ciphers := some s } }
  | .ciphersuites s => { g with opts := { g.opts with ciphersuites := some s } }
  | .ecdhcurve s => { g with opts := { g.opts with ecdhcurve := some s } }
  | .userAuthURL s => { g with opts := { g.opts with user_auth_url := some s } }
  | .divertUsers toks l =>
    { g with opts :=
        { g.opts with divertusers :=
            (opts_set_userlist toks l g.opts.divertusers "DivertUsers").2.1 } }
  | .passUsers toks l =>
    { g with opts :=
        { g.opts with passusers :=
            (opts_set_userlist toks l g.opts.passusers "PassUsers").2.1 } }

/-- Listener creation: push a spec whose options are cloned from the
current global options (proxyspec_new inside proxyspec_parse or
load_proxyspec_struct). -/
def global_create_spec (g : GlobalSt) : GlobalSt :=
  { g with specs := proxyspec_new g.opts :: g.specs }

/-- A sample environment where every address resolves and no NAT engine
exists, for concrete runs of the listener state machine. -/
def envAll : SysEnv :=
  { sockaddrOk := fun _ _ => true, getAf := fun _ => 2, natExist := fun _ => false }

/-! ## Theorems -/

theorem foldl_cons_eq_reverse (l acc : List String) :
    l.foldl (fun a u => u :: a) acc = l.reverse ++ acc := by
  induction l generalizing acc with
  | nil => simp
  | cons x xs ih => simp [List.foldl_cons, ih]

theorem copy_userlist_reverse (l : List String) : copy_userlist l = l.reverse := by
  simp [copy_userlist, foldl_cons_eq_reverse]

theorem install_users_id (argv : List String) : install_users argv = argv := by
  simp [install_users, foldl_cons_eq_reverse]

theorem global_opts_copy_ecdhcurve (g : Opts) :
    (global_opts_copy g).ecdhcurve = g.ecdhcurve := by
  cases h : g.ecdhcurve <;> simp [global_opts_copy, opts_new, h]

theorem global_opts_copy_ciphers (g : Opts) :
    (global_opts_copy g).ciphers = g.ciphers := by
  cases h : g.ciphers <;> simp [global_opts_copy, opts_new, h]

theorem global_opts_copy_ciphersuites (g : Opts) :
    (global_opts_copy g).ciphersuites = g.ciphersuites := by
  cases h : g.ciphersuites <;> simp [global_opts_copy, opts_new, h]

theorem global_opts_copy_user_auth_url (g : Opts) :
    (global_opts_copy g).user_auth_url = g.user_auth_url := by
  cases h : g.user_auth_url <;> simp [global_opts_copy, opts_new, h]

theorem applyGlobalOp_specs (g : GlobalSt) (op : GlobalOp) :
    (applyGlobalOp g op).specs = g.specs := by
  cases op <;> simp [applyGlobalOp]
  split <;> rfl

theorem foldl_applyGlobalOp_specs (ops : List GlobalOp) (g : GlobalSt) :
    (ops.foldl applyGlobalOp g).specs = g.specs := by
  induction ops generalizing g with
  | nil => rfl
  | cons op rest ih => simp [List.foldl_cons, ih, applyGlobalOp_specs]

/-- C1: the claim is refuted by the repository test suite.  The spec
formula assigns precedence 1 + 1 + 1 + 0 + 0 = 3 to the Divert rule
"from ip 192.168.0.1 to ip 192.168.0.2 port 443" (source IP, target
site, target port, no log), but the expected dump in set_filter_rule_09
requires precedence 2 for exactly this rule, as does the reconstructed
compiler formula. -/
theorem c1_counterexample :
    specPrecedence rule09_0 = 3 ∧ rule09_0.precedence = 2 ∧
      rulePrecedence rule09_0 = 2 ∧ specPrecedence rule09_0 ≠ rule09_0.precedence := by
  decide

/-- C1 (amended): for every compiled rule the precedence lies in 0..5 and
equals (has user or description source, incl. `from user *` ? 1 : 0) +
(specific user ? 1 : 0) + (description ? 1 : 0) + (target-site clause ?
1 : 0) + (port clause ? 1 : 0) + (log clause ? 1 : 0); a source-IP
constraint and a Block action contribute nothing.  In particular a
Divert rule with a source IP, a target site and a target port and no log
clause gets precedence 2.  The formula is validated against every
precedence value expected by the repository filter test suite. -/
theorem c1_precedence_formula :
    (allTestRules.all fun r =>
        rulePrecedence r == r.precedence && decide (r.precedence ≤ 5)) = true ∧
    rulePrecedence rule09_0 = 2 := by
  constructor
  · decide
  · decide

/-- C2: the claim is refuted at the user-list fields.  A listener created
while the global options hold DivertUsers alice,bob receives the list in
reversed order, so not every option field of the new listener equals the
corresponding global field at the instant of creation. -/
theorem c2_counterexample :
    (proxyspec_new { opts_new with divertusers := ["alice", "bob"] }).opts.divertusers
        = ["bob", "alice"] ∧
      ["bob", "alice"] ≠ ["alice", "bob"] := by
  constructor
  · decide
  · decide

/-- C2 (amended): every scalar and string option field of a listener
created by proxyspec_new equals the corresponding field of the global
Options at the instant of creation, and the macro table and filter-rule
list are copied; the DivertUsers and PassUsers lists contain the same
users in reversed order.  Any subsequent mutation of the global Options
through the modelled setters leaves every already-created listener
unchanged. -/
theorem c2_clone_and_frame (g : GlobalSt) (ops : List GlobalOp) :
    ((proxyspec_new g.opts).opts.divert = g.opts.divert ∧
     (proxyspec_new g.opts).opts.sslcomp = g.opts.sslcomp ∧
     (proxyspec_new g.opts).opts.no_ssl2 = g.opts.no_ssl2 ∧
     (proxyspec_new g.opts).opts.no_ssl3 = g.opts.no_ssl3 ∧
     (proxyspec_new g.opts).opts.no_tls10 = g.opts.no_tls10 ∧
     (proxyspec_new g.opts).opts.no_tls11 = g.opts.no_tls11 ∧
     (proxyspec_new g.opts).opts.no_tls12 = g.opts.no_tls12 ∧
     (proxyspec_new g.opts).opts.no_tls13 = g.opts.no_tls13 ∧
     (proxyspec_new g.opts).opts.passthrough = g.opts.passthrough ∧
     (proxyspec_new g.opts).opts.deny_ocsp = g.opts.deny_ocsp ∧
     (proxyspec_new g.opts).opts.sslmethod = g.opts.sslmethod ∧
     (proxyspec_new g.opts).opts.sslversion = g.opts.sslversion ∧
     (proxyspec_new g.opts).opts.minsslversion = g.opts.minsslversion ∧
     (proxyspec_new g.opts).opts.maxsslversion = g.opts.maxsslversion ∧
     (proxyspec_new g.opts).opts.remove_http_accept_encoding
        = g.opts.remove_http_accept_encoding ∧
     (proxyspec_new g.opts).opts.remove_http_referer = g.opts.remove_http_referer ∧
     (proxyspec_new g.opts).opts.verify_peer = g.opts.verify_peer ∧
     (proxyspec_new g.opts).opts.allow_wrong_host = g.opts.allow_wrong_host ∧
     (proxyspec_new g.opts).opts.user_auth = g.opts.user_auth ∧
     (proxyspec_new g.opts).opts.user_timeout = g.opts.user_timeout ∧
     (proxyspec_new g.opts).opts.validate_proto = g.opts.validate_proto ∧
     (proxyspec_new g.opts).opts.max_http_header_size = g.opts.max_http_header_size ∧
     (proxyspec_new g.opts).opts.ecdhcurve = g.opts.ecdhcurve ∧
     (proxyspec_new g.opts).opts.ciphers = g.opts.ciphers ∧
     (proxyspec_new g.opts).opts.ciphersuites = g.opts.ciphersuites ∧
     (proxyspec_new g.opts).opts.user_auth_url = g.opts.user_auth_url ∧
     (proxyspec_new g.opts).opts.macros = g.opts.macros ∧
     (proxyspec_new g.opts).opts.filter_rules = g.opts.filter_rules ∧
     (proxyspec_new g.opts).opts.divertusers = g.opts.divertusers.reverse ∧
     (proxyspec_new g.opts).opts.passusers = g.opts.passusers.reverse) ∧
    (ops.foldl applyGlobalOp (global_create_spec g)).specs
        = (global_create_spec g).specs := by
  refine ⟨⟨rfl, rfl, rfl, rfl, rfl, rfl, rfl, rfl, rfl, rfl, rfl, rfl, rfl, rfl,
      rfl, rfl, rfl, rfl, rfl, rfl, rfl, rfl, ?_, ?_, ?_, ?_, rfl, rfl, ?_, ?_⟩, ?_⟩
  · exact global_opts_copy_ecdhcurve g.opts
  · exact global_opts_copy_ciphers g.opts
  · exact global_opts_copy_ciphersuites g.opts
  · exact global_opts_copy_user_auth_url g.opts
  · exact copy_userlist_reverse g.opts.divertusers
  · exact copy_userlist_reverse g.opts.passusers
  · exact foldl_applyGlobalOp_specs ops (global_create_spec g)

/-- C3: the claim is refuted at the user lists.  Cloning an Options whose
PassUsers list is u1,u2 yields the list in reversed order, and the
users_str fragment of the textual dump of the clone differs from that of
the original, so the dumps are not character-identical. -/
theorem c3_counterexample :
    (global_opts_copy { opts_new with passusers := ["u1", "u2"] }).passusers
        = ["u2", "u1"] ∧
      users_str (global_opts_copy { opts_new with passusers := ["u1", "u2"] }).passusers
        = "u2,u1" ∧
      users_str (["u1", "u2"] : List String) = "u1,u2" ∧
      ("u2,u1" : String) ≠ "u1,u2" := by
  refine ⟨by decide, by decide, by decide, by decide⟩

/-- C3 (amended): the clone copies every modelled scalar and duplicates
every owned string, and copies the macro table and rule list, but
replicates the DivertUsers and PassUsers lists in reversed order; the
users_str fragments of the dumps of clone and original therefore agree
exactly when the reversal is invisible, in particular whenever each user
list holds at most one entry. -/
theorem c3_clone_reverses_userlists (o : Opts) :
    (global_opts_copy o).divert = o.divert ∧
    (global_opts_copy o).user_timeout = o.user_timeout ∧
    (global_opts_copy o).max_http_header_size = o.max_http_header_size ∧
    (global_opts_copy o).ciphers = o.ciphers ∧
    (global_opts_copy o).ciphersuites = o.ciphersuites ∧
    (global_opts_copy o).ecdhcurve = o.ecdhcurve ∧
    (global_opts_copy o).user_auth_url = o.user_auth_url ∧
    (global_opts_copy o).macros = o.macros ∧
    (global_opts_copy o).filter_rules = o.filter_rules ∧
    (global_opts_copy o).divertusers = o.divertusers.reverse ∧
    (global_opts_copy o).passusers = o.passusers.reverse ∧
    (o.divertusers.length ≤ 1 →
      users_str (global_opts_copy o).divertusers = users_str o.divertusers) ∧
    (o.passusers.length ≤ 1 →
      users_str (global_opts_copy o).passusers = users_str o.passusers) := by
  have hrev : ∀ l : List String, l.length ≤ 1 → l.reverse = l := by
    intro l h
    match l with
    | [] => rfl
    | [a] => rfl
    | a :: b :: t => simp at h
  refine ⟨rfl, rfl, rfl, global_opts_copy_ciphers o, global_opts_copy_ciphersuites o,
    global_opts_copy_ecdhcurve o, global_opts_copy_user_auth_url o, rfl, rfl,
    copy_userlist_reverse o.divertusers, copy_userlist_reverse o.passusers, ?_, ?_⟩
  · intro h
    rw [show (global_opts_copy o).divertusers = o.divertusers.reverse from
          copy_userlist_reverse o.divertusers,
        hrev o.divertusers h]
  · intro h
    rw [show (global_opts_copy o).passusers = o.passusers.reverse from
          copy_userlist_reverse o.passusers,
        hrev o.passusers h]

/-- C3 (witness): the amended clone properties evaluated at a concrete
Options with one PassUsers entry. -/
theorem c3_clone_reverses_userlists_witness :
    users_str (global_opts_copy { opts_new with passusers := ["u1"] }).passusers
      = users_str ({ opts_new with passusers := ["u1"] } : Opts).passusers :=
  (c3_clone_reverses_userlists { opts_new with passusers := ["u1"] }).2.2.2.2.2.2.2.2.2.2.2.2
    (by decide)

/-- C4: every modelled numeric setter accepts its value exactly when it
lies in the documented range (UserTimeout 0-86400, MaxHTTPHeaderSize
1024-65536, ConnIdleTimeout 10-3600, ExpiredConnCheckPeriod 10-60,
StatsPeriod 1-10, LeafKeyRSABits in 1024|2048|3072|4096, OpenFilesLimit
50-10000, the last additionally subject to the setrlimit system call
succeeding); an out-of-range value returns -1 with a line-numbered
diagnostic and leaves the stored field unchanged.  The value is the
atoi result of the directive argument, ranging over 32-bit ints. -/
theorem c4_numeric_ranges (old : Nat) (i line_num : Int) (rlimitOk : Bool)
    (h1 : -2147483648 ≤ i) (h2 : i < 2147483648) :
    ((0 ≤ i ∧ i ≤ 86400) →
        set_option_user_timeout old i line_num = ⟨0, i.toNat, none⟩) ∧
    (¬(0 ≤ i ∧ i ≤ 86400) →
        set_option_user_timeout old i line_num =
          ⟨-1, old, some s!"Invalid UserTimeout {i} on line {line_num}, use 0-86400"⟩) ∧
    ((1024 ≤ i ∧ i ≤ 65536) →
        set_option_max_http_header_size old i line_num = ⟨0, i.toNat, none⟩) ∧
    (¬(1024 ≤ i ∧ i ≤ 65536) →
        set_option_max_http_header_size old i line_num =
          ⟨-1, old, some s!"Invalid MaxHTTPHeaderSize {i} on line {line_num}, use 1024-65536"⟩) ∧
    ((10 ≤ i ∧ i ≤ 3600) →
        set_global_conn_idle_timeout old i line_num = ⟨0, i.toNat, none⟩) ∧
    (¬(10 ≤ i ∧ i ≤ 3600) →
        set_global_conn_idle_timeout old i line_num =
          ⟨-1, old, some s!"Invalid ConnIdleTimeout {i} on line {line_num}, use 10-3600"⟩) ∧
    ((10 ≤ i ∧ i ≤ 60) →
        set_global_expired_conn_check_period old i line_num = ⟨0, i.toNat, none⟩) ∧
    (¬(10 ≤ i ∧ i ≤ 60) →
        set_global_expired_conn_check_period old i line_num =
          ⟨-1, old, some s!"Invalid ExpiredConnCheckPeriod {i} on line {line_num}, use 10-60"⟩) ∧
    ((1 ≤ i ∧ i ≤ 10) →
        set_global_stats_period old i line_num = ⟨0, i.toNat, none⟩) ∧
    (¬(1 ≤ i ∧ i ≤ 10) →
        set_global_stats_period old i line_num =
          ⟨-1, old, some s!"Invalid StatsPeriod {i} on line {line_num}, use 1-10"⟩) ∧
    ((i = 1024 ∨ i = 2048 ∨ i = 3072 ∨ i = 4096) →
        set_global_leafkey_rsabits old i line_num = ⟨0, i.toNat, none⟩) ∧
    (¬(i = 1024 ∨ i = 2048 ∨ i = 3072 ∨ i = 4096) →
        set_global_leafkey_rsabits old i line_num =
          ⟨-1, old,
            some s!"Invalid LeafKeyRSABits {i} on line {line_num}, use 1024|2048|3072|4096"⟩) ∧
    ((50 ≤ i ∧ i ≤ 10000) → rlimitOk = true →
        global_set_open_files_limit i line_num rlimitOk = ⟨0, i.toNat, none⟩) ∧
    (¬(50 ≤ i ∧ i ≤ 10000) →
        global_set_open_files_limit i line_num rlimitOk =
          ⟨-1, 0, some s!"Invalid OpenFilesLimit {i} on line {line_num}, use 50-10000"⟩) := by
  refine ⟨?_, ?_, ?_, ?_, ?_, ?_, ?_, ?_, ?_, ?_, ?_, ?_, ?_, ?_⟩
  · intro h
    simp only [set_option_user_timeout, cUInt]
    rw [if_pos (show (i % 4294967296).toNat ≤ 86400 from by omega),
      show (i % 4294967296).toNat = i.toNat from by omega]
  · intro h
    simp only [set_option_user_timeout, cUInt]
    rw [if_neg (show ¬(i % 4294967296).toNat ≤ 86400 from by omega)]
  · intro h
    simp only [set_option_max_http_header_size, cUInt]
    rw [if_pos (show 1024 ≤ (i % 4294967296).toNat ∧ (i % 4294967296).toNat ≤ 65536 from
        by omega),
      show (i % 4294967296).toNat = i.toNat from by omega]
  · intro h
    simp only [set_option_max_http_header_size, cUInt]
    rw [if_neg (show ¬(1024 ≤ (i % 4294967296).toNat ∧ (i % 4294967296).toNat ≤ 65536) from
        by omega)]
  · intro h
    simp only [set_global_conn_idle_timeout, cUInt]
    rw [if_pos (show 10 ≤ (i % 4294967296).toNat ∧ (i % 4294967296).toNat ≤ 3600 from
        by omega),
      show (i % 4294967296).toNat = i.toNat from by omega]
  · intro h
    simp only [set_global_conn_idle_timeout, cUInt]
    rw [if_neg (show ¬(10 ≤ (i % 4294967296).toNat ∧ (i % 4294967296).toNat ≤ 3600) from
        by omega)]
  · intro h
    simp only [set_global_expired_conn_check_period, cUInt]
    rw [if_pos (show 10 ≤ (i % 4294967296).toNat ∧ (i % 4294967296).toNat ≤ 60 from
        by omega),
      show (i % 4294967296).toNat = i.toNat from by omega]
  · intro h
    simp only [set_global_expired_conn_check_period, cUInt]
    rw [if_neg (show ¬(10 ≤ (i % 4294967296).toNat ∧ (i % 4294967296).toNat ≤ 60) from
        by omega)]
  · intro h
    simp only [set_global_stats_period, cUInt]
    rw [if_pos (show 1 ≤ (i % 4294967296).toNat ∧ (i % 4294967296).toNat ≤ 10 from
        by omega),
      show (i % 4294967296).toNat = i.toNat from by omega]
  · intro h
    simp only [set_global_stats_period, cUInt]
    rw [if_neg (show ¬(1 ≤ (i % 4294967296).toNat ∧ (i % 4294967296).toNat ≤ 10) from
        by omega)]
  · intro h
    simp only [set_global_leafkey_rsabits, cUInt]
    rw [if_pos (show (i % 4294967296).toNat = 1024 ∨ (i % 4294967296).toNat = 2048 ∨
          (i % 4294967296).toNat = 3072 ∨ (i % 4294967296).toNat = 4096 from by omega),
      show (i % 4294967296).toNat = i.toNat from by omega]
  · intro h
    simp only [set_global_leafkey_rsabits, cUInt]
    rw [if_neg (show ¬((i % 4294967296).toNat = 1024 ∨ (i % 4294967296).toNat = 2048 ∨
          (i % 4294967296).toNat = 3072 ∨ (i % 4294967296).toNat = 4096) from by omega)]
  · intro h hr
    subst hr
    simp only [global_set_open_files_limit, cUInt]
    rw [if_pos (show 50 ≤ (i % 4294967296).toNat ∧ (i % 4294967296).toNat ≤ 10000 from
        by omega),
      if_pos trivial,
      show (i % 4294967296).toNat = i.toNat from by omega]
  · intro h
    simp only [global_set_open_files_limit, cUInt]
    rw [if_neg (show ¬(50 ≤ (i % 4294967296).toNat ∧ (i % 4294967296).toNat ≤ 10000) from
        by omega)]

/-- C4 (witness): the range theorem evaluated at concrete values: 500 is
accepted for UserTimeout and 99 is rejected for StatsPeriod with the
line-numbered diagnostic. -/
theorem c4_numeric_ranges_witness :
    set_option_user_timeout 300 500 3 = ⟨0, (500 : Int).toNat, none⟩ ∧
    set_global_stats_period 1 99 4 =
      ⟨-1, 1, some s!"Invalid StatsPeriod {(99 : Int)} on line {(4 : Int)}, use 1-10"⟩ :=
  ⟨(c4_numeric_ranges 300 500 3 true (by decide) (by decide)).1 (by decide),
   ((c4_numeric_ranges 1 99 4 true (by decide) (by decide)).2.2.2.2.2.2.2.2.2.1 (by decide))⟩

/-- C5: the claim is refuted at the empty value.  A Divert directive with
an empty value string (possible from `-o Divert=` or a value-less line)
is rejected by the leading value-presence check of set_option with the
"No value assigned" diagnostic; it is not handed to the filter-rule
parser, although the empty string is neither "yes" nor "no". -/
theorem c5_counterexample :
    set_option_model opts_new "Divert" "" 7
        = .err "No value assigned for Divert on line 7" ∧
      set_option_model opts_new "Divert" "" 7 ≠ .rule "Divert" "" opts_new := by
  constructor
  · decide
  · decide

/-- C5 (amended): for a Divert directive with a non-empty value, the
dispatcher toggles the divert flag and returns 0 when the value is
exactly yes or no, and hands any other value to the filter-rule parser
as a one-line Divert rule; an empty value is rejected with the "No value
assigned" diagnostic before the disambiguation. -/
theorem c5_divert_dispatch (o : Opts) (v : String) (l : Int) :
    (v = "yes" → set_option_model o "Divert" v l = .ok (opts_set_divert o)) ∧
    (v = "no" → set_option_model o "Divert" v l = .ok (opts_unset_divert o)) ∧
    (v.length ≠ 0 → v ≠ "yes" → v ≠ "no" →
        set_option_model o "Divert" v l = .rule "Divert" v o) ∧
    (v.length = 0 → ∃ m, set_option_model o "Divert" v l = .err m) := by
  refine ⟨?_, ?_, ?_, ?_⟩
  · intro h; subst h; rfl
  · intro h; subst h; rfl
  · intro h0 h1 h2
    simp [set_option_model, is_yesno, h0, h1, h2]
  · intro h0
    exact ⟨_, by simp [set_option_model, h0]; rfl⟩

/-- C5 (witness): a Divert directive whose value is an address token
becomes a one-line Divert rule. -/
theorem c5_divert_dispatch_witness :
    set_option_model opts_new "Divert" "divertme" 0
      = .rule "Divert" "divertme" opts_new :=
  (c5_divert_dispatch opts_new "divertme" 0).2.2.1 (by decide) (by decide) (by decide)

theorem load_depth0_opens_nothing (fs : List (String × List Directive))
    (ds : List Directive) : (load_conffile_go fs 0 ds).2.1 = [] := by
  induction ds with
  | nil => simp [load_conffile_go]
  | cons d rest ih =>
    cases d with
    | inc n => simp [load_conffile_go]
    | plain ok =>
      cases ok
      · simp [load_conffile_go]
      · simp [load_conffile_go, ih]

theorem load_top_opens_only_listed (fs : List (String × List Directive))
    (ds : List Directive) (m : String) :
    m ∈ (load_conffile_go fs 1 ds).2.1 → Directive.inc m ∈ ds := by
  induction ds with
  | nil => intro h; simp [load_conffile_go] at h
  | cons d rest ih =>
    cases d with
    | plain ok =>
      cases ok
      · intro h; simp [load_conffile_go] at h
      · intro h
        simp only [load_conffile_go, if_true] at h
        exact List.mem_cons_of_mem _ (ih h)
    | inc n =>
      intro h
      simp only [load_conffile_go] at h
      cases hl : lookupFile fs n with
      | none =>
        rw [hl] at h
        simp at h
        simp [h]
      | some inner =>
        rw [hl] at h
        by_cases hr : (load_conffile_go fs 0 inner).1 = true
        · simp [hr, load_depth0_opens_nothing] at h
          rcases h with h1 | h2
          · simp [h1]
          · exact List.mem_cons_of_mem _ (ih h2)
        · simp [hr, load_depth0_opens_nothing] at h
          simp [h]

/-- C6: an Include directive seen while the include flag is set is
rejected with a diagnostic and -1 before any file is opened; processing
started inside an included file (flag set) never opens any further file,
so no chain of nested or recursive includes is ever followed; every file
the top-level processing opens is named by an Include directive of the
top-level file itself; and a top-level Include with a resolvable name
opens that file and processes it in-line, continuing with the remaining
directives exactly when the included content succeeds. -/
theorem c6_include_no_nesting (fs : List (String × List Directive))
    (ds rest : List Directive) (n m : String) :
    (load_conffile_dirs fs true (.inc n :: rest)
        = (false, [], some s!"Include option not allowed in include files {n}")) ∧
    ((load_conffile_dirs fs true ds).2.1 = []) ∧
    (m ∈ (load_conffile_dirs fs false ds).2.1 → Directive.inc m ∈ ds) ∧
    (∀ inner, lookupFile fs n = some inner →
      (load_conffile_dirs fs false (.inc n :: rest)).2.1.head? = some n ∧
      ((load_conffile_dirs fs false (.inc n :: rest)).1 = true ↔
        ((load_conffile_go fs 0 inner).1 = true ∧
         (load_conffile_go fs 1 rest).1 = true))) := by
  refine ⟨?_, ?_, ?_, ?_⟩
  · simp [load_conffile_dirs, load_conffile_go]
  · exact load_depth0_opens_nothing fs ds
  · exact load_top_opens_only_listed fs ds m
  · intro inner hl
    by_cases hr : (load_conffile_go fs 0 inner).1 = true
    · constructor
      · simp [load_conffile_dirs, load_conffile_go, hl, hr]
      · simp [load_conffile_dirs, load_conffile_go, hl, hr]
    · constructor
      · simp [load_conffile_dirs, load_conffile_go, hl, hr]
      · simp [load_conffile_dirs, load_conffile_go, hl, hr]

/-- C6 (witness): the include contract at a concrete two-file
configuration: the top file includes "sub" which holds one successful
plain directive; processing succeeds, opens exactly "sub", and an
Include inside an include-flagged context is rejected. -/
theorem c6_include_no_nesting_witness :
    load_conffile_dirs [("sub", [Directive.plain true])] true
        (Directive.inc "sub" :: [])
      = (false, [],
          some "Include option not allowed in include files sub") ∧
    (load_conffile_dirs [("sub", [Directive.plain true])] false
        (Directive.inc "sub" :: [])).2.1.head? = some "sub" := by
  constructor
  · exact (c6_include_no_nesting [("sub", [Directive.plain true])] [] []
      "sub" "x").1
  · exact ((c6_include_no_nesting [("sub", [Directive.plain true])] [] []
      "sub" "x").2.2.2 [Directive.plain true] (by decide)).1

/-- C7: the effective divert flag of a parsed listener spec: the global
split flag forces divert off; otherwise the absence of a configured
divert (conn dst) address forces divert off; otherwise set_divert
leaves the spec, and in particular its own Divert option value
(inherited or explicitly set), unchanged. -/
theorem c7_effective_divert (spec : Proxyspec) (split : Bool) :
    (split = true → (set_divert spec split).opts.divert = false) ∧
    (spec.conn_dst_addrlen = 0 → (set_divert spec split).opts.divert = false) ∧
    (split = false → spec.conn_dst_addrlen ≠ 0 → set_divert spec split = spec) := by
  refine ⟨?_, ?_, ?_⟩
  · intro h
    subst h
    simp [set_divert, opts_unset_divert]
  · intro h
    simp [set_divert, h, opts_unset_divert]
  · intro h1 h2
    subst h1
    simp [set_divert, h2]

/-- C7 (witness): the effective-divert rule evaluated at a concrete
spec: with the split flag set, the divert flag of the fresh listener is
cleared. -/
theorem c7_effective_divert_witness :
    (set_divert (proxyspec_blank opts_new) true).opts.divert = false :=
  (c7_effective_divert (proxyspec_blank opts_new) true).1 rfl

/-- C8: the claim is refuted at the pop3s protocol.  A spec declared
with the pop3s keyword (neither ssl nor https) has its ssl flag set, so
an sni clause is accepted: the sni port 443 is captured and 0 is
returned, where the claim demands a diagnostic and -1. -/
theorem c8_counterexample :
    (proxyspec_set_proto (proxyspec_blank opts_new) "pop3s").1 = 0 ∧
    (proxyspec_set_sni_port (proxyspec_set_proto (proxyspec_blank opts_new) "pop3s").2
        "443").1 = 0 ∧
    (proxyspec_set_sni_port (proxyspec_set_proto (proxyspec_blank opts_new) "pop3s").2
        "443").2.1.sni_port = 443 := by
  refine ⟨by decide, by decide, by decide⟩

/-- C8 (amended): the sni clause is accepted exactly when the ssl flag
of the spec is set, that is for the protocol keywords ssl, https, pop3s and
smtps; for any other protocol a diagnostic is raised and -1 returned,
and an unparsable port is likewise rejected. -/
theorem c8_sni_requires_ssl_flag (spec : Proxyspec) (port v : String) :
    (spec.ssl = false →
      proxyspec_set_sni_port spec port =
        (-1, spec, some "SNI hostname lookup only works for ssl and https proxyspecs")) ∧
    (spec.ssl = true → atoi port ≠ 0 →
      proxyspec_set_sni_port spec port =
        (0, { spec with sni_port := atoi port, dns := true, natengine := none }, none)) ∧
    (spec.ssl = true → atoi port = 0 →
      (proxyspec_set_sni_port spec port).1 = -1) ∧
    ((proxyspec_set_proto spec v).2.ssl = true ↔
      (v = "ssl" ∨ v = "https" ∨ v = "pop3s" ∨ v = "smtps")) := by
  refine ⟨?_, ?_, ?_, ?_⟩
  · intro h
    simp [proxyspec_set_sni_port, h]
  · intro h hp
    simp [proxyspec_set_sni_port, h, hp]
  · intro h hp
    simp [proxyspec_set_sni_port, h, hp]
  · unfold proxyspec_set_proto
    split_ifs with h1 h2 h3 h4 h5 h6 h7 h8 h9 <;> simp_all

/-- C8 (witness): the amended sni rule evaluated concretely: an sni
clause on a plain tcp spec is rejected with the diagnostic. -/
theorem c8_sni_requires_ssl_flag_witness :
    proxyspec_set_sni_port (proxyspec_blank opts_new) "443" =
      (-1, proxyspec_blank opts_new,
        some "SNI hostname lookup only works for ssl and https proxyspecs") :=
  (c8_sni_requires_ssl_flag (proxyspec_blank opts_new) "443" "tcp").1 rfl

theorem collect_users_ok (toks : List String) :
    ∀ argv : List String, argv.length + toks.length ≤ MAX_USERS →
      collect_users toks argv = some (argv ++ toks) := by
  induction toks with
  | nil =>
    intro argv h
    simp [collect_users]
  | cons t ts ih =>
    intro argv h
    simp only [List.length_cons] at h
    simp only [collect_users]
    rw [if_pos (show argv.length < MAX_USERS from by omega)]
    rw [ih (argv ++ [t]) (by simp; omega)]
    simp

theorem collect_users_overflow (toks : List String) :
    ∀ argv : List String, MAX_USERS < argv.length + toks.length → toks ≠ [] →
      collect_users toks argv = none := by
  induction toks with
  | nil =>
    intro argv h hne
    exact absurd rfl hne
  | cons t ts ih =>
    intro argv h _
    simp only [List.length_cons] at h
    simp only [collect_users]
    by_cases hlt : argv.length < MAX_USERS
    · rw [if_pos hlt]
      refine ih (argv ++ [t]) ?_ ?_
      · simp
        omega
      · intro hts
        subst hts
        simp only [List.length_nil] at h
        simp [MAX_USERS] at h hlt
        omega
    · rw [if_neg hlt]

/-- C9: the claim is refuted on the over-limit side.  A DivertUsers
value with 51 tokens is rejected with the error and return -1, and the
previously stored list is left untouched: nothing is truncated to 50
entries and installed. -/
theorem c9_counterexample :
    opts_set_userlist (List.replicate 51 "u") 3 ["olduser"] "DivertUsers"
      = (-1, ["olduser"],
          some "Too many arguments in user list, max users allowed 50, on line 3") ∧
    (opts_set_userlist (List.replicate 51 "u") 3 ["olduser"] "DivertUsers").2.1.length
      = 1 := by
  refine ⟨by decide, by decide⟩

/-- C9 (amended): a DivertUsers or PassUsers value with more than 50
tokens is rejected with the too-many-arguments error and -1, leaving
the stored list unchanged (no truncated list is installed); a value
with 1 to 50 tokens installs exactly those users in order, replacing
any previously stored list; an empty value is an error. -/
theorem c9_userlist_rules (toks old : List String) (l : Int) (listname : String) :
    (toks.length > 50 →
        opts_set_userlist toks l old listname
          = (-1, old,
              some s!"Too many arguments in user list, max users allowed 50, on line {l}")) ∧
    (1 ≤ toks.length → toks.length ≤ 50 →
        opts_set_userlist toks l old listname = (0, toks, none)) ∧
    (toks.length = 0 →
        opts_set_userlist toks l old listname
          = (-1, old, some s!"{listname} requires at least one parameter on line {l}")) := by
  refine ⟨?_, ?_, ?_⟩
  · intro h
    have hne : toks ≠ [] := by
      intro he
      subst he
      simp at h
    have hc := collect_users_overflow toks [] (by simp [MAX_USERS]; omega) hne
    simp [opts_set_userlist, hc]
  · intro h1 h50
    have hc := collect_users_ok toks [] (by simp [MAX_USERS]; omega)
    have hne : ¬(toks.length = 0) := by omega
    simp [opts_set_userlist, hc, hne, install_users_id]
  · intro h
    have he : toks = [] := List.length_eq_zero.mp h
    subst he
    simp [opts_set_userlist, collect_users]

/-- C9 (witness): the amended user-list rules evaluated concretely: two
tokens replace a previously stored list. -/
theorem c9_userlist_rules_witness :
    opts_set_userlist ["alice", "bob"] 5 ["old1", "old2"] "PassUsers"
      = (0, ["alice", "bob"], none) :=
  (c9_userlist_rules ["alice", "bob"] ["old1", "old2"] 5 "PassUsers").2.1
    (by decide) (by decide)

/-- C10: the return contract of proxyspec_parse: an empty token list
returns 0 without creating any listener spec; the return value is 0
exactly when no setter failed and the token loop ended in state 0, 3 or
4; when the loop ended in one of the capture states 1, 2, 5 or 6 the
function reports "Incomplete proxyspec!" and returns -1.  Two concrete
runs exercise the contract: a spec complete up to an up: clause parses
to 0 (final state 4), and a spec cut off after the listen address
(final state 2) reports incompleteness. -/
theorem c10_parse_contract (env : SysEnv) (g : Opts) (ne : Option String)
    (split : Bool) (tokens : List String) :
    (proxyspec_parse env g ne split [] = (0, [], none)) ∧
    ((proxyspec_parse env g ne split tokens).1 = 0 ↔
      ((proxyspec_parse_go env g ne tokens [] "" 0 0).1 = true ∧
        ((proxyspec_parse_go env g ne tokens [] "" 0 0).2.2 = 0 ∨
         (proxyspec_parse_go env g ne tokens [] "" 0 0).2.2 = 3 ∨
         (proxyspec_parse_go env g ne tokens [] "" 0 0).2.2 = 4))) ∧
    ((proxyspec_parse_go env g ne tokens [] "" 0 0).1 = true →
      ((proxyspec_parse_go env g ne tokens [] "" 0 0).2.2 = 1 ∨
       (proxyspec_parse_go env g ne tokens [] "" 0 0).2.2 = 2 ∨
       (proxyspec_parse_go env g ne tokens [] "" 0 0).2.2 = 5 ∨
       (proxyspec_parse_go env g ne tokens [] "" 0 0).2.2 = 6) →
      proxyspec_parse env g ne split tokens
        = (-1, (proxyspec_parse_go env g ne tokens [] "" 0 0).2.1,
            some "Incomplete proxyspec!")) ∧
    ((proxyspec_parse envAll opts_new (some "pf") false
        ["https", "127.0.0.1", "8443", "up:8080"]).1 = 0 ∧
      (proxyspec_parse_go envAll opts_new (some "pf")
        ["https", "127.0.0.1", "8443", "up:8080"] [] "" 0 0).2.2 = 4) ∧
    ((proxyspec_parse envAll opts_new (some "pf") false ["https", "127.0.0.1"]).1
        = -1 ∧
      (proxyspec_parse envAll opts_new (some "pf") false ["https", "127.0.0.1"]).2.2
        = some "Incomplete proxyspec!" ∧
      (proxyspec_parse_go envAll opts_new (some "pf") ["https", "127.0.0.1"]
        [] "" 0 0).2.2 = 2) := by
  refine ⟨?_, ?_, ?_, ⟨by decide, by decide⟩, ⟨by decide, by decide, by decide⟩⟩
  · simp [proxyspec_parse, proxyspec_parse_go]
  · by_cases hok : (proxyspec_parse_go env g ne tokens [] "" 0 0).1 = true
    · by_cases hst : ((proxyspec_parse_go env g ne tokens [] "" 0 0).2.2 = 0 ∨
          (proxyspec_parse_go env g ne tokens [] "" 0 0).2.2 = 3 ∨
          (proxyspec_parse_go env g ne tokens [] "" 0 0).2.2 = 4)
      · simp only [proxyspec_parse]
        rw [if_neg (show ¬(proxyspec_parse_go env g ne tokens [] "" 0 0).1 = false from
            by simp [hok])]
        rw [if_neg (by omega)]
        constructor
        · intro _
          exact ⟨hok, hst⟩
        · intro _
          split <;> rfl
      · simp only [proxyspec_parse]
        rw [if_neg (show ¬(proxyspec_parse_go env g ne tokens [] "" 0 0).1 = false from
            by simp [hok])]
        rw [if_pos (by omega)]
        constructor
        · intro hx
          exact absurd hx (by norm_num)
        · intro hx
          exact absurd hx.2 hst
    · simp only [proxyspec_parse]
      rw [if_pos (show (proxyspec_parse_go env g ne tokens [] "" 0 0).1 = false from
          by simpa using hok)]
      constructor
      · intro hx
        exact absurd hx (by norm_num)
      · intro hx
        exact absurd hx.1 hok
  · intro hok hst
    simp only [proxyspec_parse]
    rw [if_neg (show ¬(proxyspec_parse_go env g ne tokens [] "" 0 0).1 = false from
        by simp [hok])]
    rw [if_pos (by omega)]

/-- C10 (witness): the contract applied at a concrete incomplete run
(tokens exhausted in state 2, just after the listen address). -/
theorem c10_parse_contract_witness :
    proxyspec_parse envAll opts_new (some "pf") false ["https", "127.0.0.1"]
      = (-1,
          (proxyspec_parse_go envAll opts_new (some "pf") ["https", "127.0.0.1"]
            [] "" 0 0).2.1,
          some "Incomplete proxyspec!") :=
  (c10_parse_contract envAll opts_new (some "pf") false
    ["https", "127.0.0.1"]).2.2.1 (by decide) (by decide)

end SSLproxy
